import Mathlib

set_option linter.dupNamespace false

/-!
Verification of the SwiftStorage reconciliation controller
(src/controllers/swiftstorage_controller.go) against its design spec.

The Go source is shallowly embedded: Kubernetes objects become Lean
structures carrying exactly the fields the controller populates, and
each Go function of the controller becomes a Lean function of the same
name.  Collaborators that live outside src/ (the `swift` constants
package, the lib-common statefulset applier, the cluster API) are
modelled from the spec and marked as such in their doc comments.
-/

namespace SwiftOperator

/-- Spec sub-record of the SwiftStorage custom resource (DesiredState):
replica count, per-domain container image references, storage class
name, and the reference to the externally managed ring config map. -/
structure SwiftStorageSpec where
  Replicas : Int
  ContainerImageAccount : String
  ContainerImageContainer : String
  ContainerImageObject : String
  ContainerImageProxy : String
  ContainerImageMemcached : String
  StorageClassName : String
  SwiftRingConfigMap : String
  deriving DecidableEq, Repr

/-- The SwiftStorage custom resource: identity (namespace + name) plus
its Spec sub-record. -/
structure SwiftStorage where
  Name : String
  Namespace : String
  Spec : SwiftStorageSpec
  deriving DecidableEq, Repr

/-- A volume source: the three source kinds the controller uses. -/
inductive VolumeSource where
  | persistentVolumeClaim (claimName : String)
  | configMap (name : String)
  | emptyDir (medium : String)
  deriving DecidableEq, Repr

/-- A pod volume: name plus source. -/
structure Volume where
  Name : String
  VolumeSource : VolumeSource
  deriving DecidableEq, Repr

/-- A container volume mount. -/
structure VolumeMount where
  Name : String
  MountPath : String
  ReadOnly : Bool
  deriving DecidableEq, Repr

/-- A named container port. -/
structure ContainerPort where
  ContainerPort : Int
  Name : String
  deriving DecidableEq, Repr

/-- Modelled from the spec: `swift.GetSecurityContext` lives outside
src/.  The spec only guarantees a uniform fixed per-container security
posture with no dependence on DesiredState, so it is a fixed record. -/
structure ContainerSecurityContext where
  RunAsNonRoot : Bool
  deriving DecidableEq, Repr

/-- Modelled from the spec: fixed per-container security context
returned by the external `swift.GetSecurityContext`. -/
def GetSecurityContext : ContainerSecurityContext :=
  { RunAsNonRoot := true }

/-- A container of the pod template: the fields the controller sets. -/
structure Container where
  Name : String
  Image : String
  ImagePullPolicy : String
  SecurityContext : ContainerSecurityContext
  Ports : List ContainerPort
  VolumeMounts : List VolumeMount
  Command : List String
  deriving DecidableEq, Repr

/-- A pod-level sysctl setting. -/
structure Sysctl where
  Name : String
  Value : String
  deriving DecidableEq, Repr

/-- Pod-level security context fields the controller sets. -/
structure PodSecurityContext where
  FSGroup : Int
  FSGroupChangePolicy : String
  Sysctls : List Sysctl
  RunAsNonRoot : Bool
  SeccompProfileType : String
  deriving DecidableEq, Repr

/-- A persistent volume claim template: the fields the controller sets. -/
structure PersistentVolumeClaim where
  Name : String
  StorageClassName : String
  AccessModes : List String
  RequestsStorage : String
  deriving DecidableEq, Repr

/-- The pod template of the stateful set. -/
structure PodTemplateSpec where
  Labels : List (String × String)
  SecurityContext : PodSecurityContext
  Volumes : List Volume
  InitContainers : List Container
  Containers : List Container
  deriving DecidableEq, Repr

/-- The stateful set spec fields the controller sets. -/
structure StatefulSetSpec where
  ServiceName : String
  SelectorMatchLabels : List (String × String)
  Replicas : Int
  Template : PodTemplateSpec
  VolumeClaimTemplates : List PersistentVolumeClaim
  deriving DecidableEq, Repr

/-- The synthesized stateful set (TargetSpec). -/
structure StatefulSet where
  Name : String
  Namespace : String
  Labels : List (String × String)
  Spec : StatefulSetSpec
  deriving DecidableEq, Repr

/-- Modelled from the spec: `swift.GetLabelsStorage` lives outside
src/; the spec says the selector/labels are a fixed table independent
of DesiredState. -/
def GetLabelsStorage : List (String × String) :=
  [("service", "swift"), ("component", "swift-storage")]

/-- Modelled from the spec: the fixed port table of the external
`swift` constants package (one port per externally reachable role;
the file-sync role binds the low port 873 matching the sysctl). -/
def AccountServerPort : Int := 6202

/-- Modelled from the spec: container server port of the fixed table. -/
def ContainerServerPort : Int := 6201

/-- Modelled from the spec: object server port of the fixed table. -/
def ObjectServerPort : Int := 6200

/-- Modelled from the spec: low-numbered port bound by the file-sync
daemon without elevated privileges. -/
def RsyncPort : Int := 873

/-- Modelled from the spec: caching daemon port of the fixed table. -/
def MemcachedPort : Int := 11211

/-- Modelled from the spec: `swift.RunAsUser`, the fixed numeric
user/group identity of the external `swift` constants package. -/
def RunAsUser : Int := 42445

/-- Embeds `getStorageVolumes` (src lines 108-146): the four pod
volumes — the per-replica claim, the per-instance config map, the ring
config map, and the empty-dir merge target. -/
def getStorageVolumes (inst : SwiftStorage) : List Volume :=
  [ { Name := "srv",
      VolumeSource := VolumeSource.persistentVolumeClaim "srv" },
    { Name := "config-data",
      VolumeSource := VolumeSource.configMap (inst.Name ++ "-config-data") },
    { Name := "ring-data",
      VolumeSource := VolumeSource.configMap inst.Spec.SwiftRingConfigMap },
    { Name := "config-data-merged",
      VolumeSource := VolumeSource.emptyDir "" } ]

/-- Embeds `getStorageVolumeMounts` (src lines 148-171). -/
def getStorageVolumeMounts : List VolumeMount :=
  [ { Name := "srv", MountPath := "/srv/node/d1", ReadOnly := false },
    { Name := "config-data", MountPath := "/var/lib/config-data/default", ReadOnly := true },
    { Name := "ring-data", MountPath := "/var/lib/config-data/rings", ReadOnly := true },
    { Name := "config-data-merged", MountPath := "/etc/swift", ReadOnly := false } ]

/-- Embeds `getPorts` (src lines 173-180). -/
def getPorts (port : Int) (name : String) : List ContainerPort :=
  [ { ContainerPort := port, Name := name } ]

/-- Embeds `getStorageInitContainers` (src lines 182-195): the single
init role staging merged configuration into /etc/swift. -/
def getStorageInitContainers (swiftstorage : SwiftStorage) : List Container :=
  let securityContext := GetSecurityContext
  [ { Name := "swift-init",
      Image := swiftstorage.Spec.ContainerImageAccount,
      ImagePullPolicy := "IfNotPresent",
      SecurityContext := securityContext,
      Ports := [],
      VolumeMounts := getStorageVolumeMounts,
      Command := ["/bin/sh", "-c",
        "cp -t /etc/swift/ /var/lib/config-data/default/* /var/lib/config-data/rings/*"] } ]

/-- Embeds `getStorageContainers` (src lines 197-326): the fixed
ordered table of long-running roles. -/
def getStorageContainers (swiftstorage : SwiftStorage) : List Container :=
  let securityContext := GetSecurityContext
  [ { Name := "account-server",
      Image := swiftstorage.Spec.ContainerImageAccount,
      ImagePullPolicy := "IfNotPresent",
      SecurityContext := securityContext,
      Ports := getPorts AccountServerPort "account",
      VolumeMounts := getStorageVolumeMounts,
      Command := ["/usr/bin/swift-account-server", "/etc/swift/account-server.conf", "-v"] },
    { Name := "account-replicator",
      Image := swiftstorage.Spec.ContainerImageAccount,
      ImagePullPolicy := "IfNotPresent",
      SecurityContext := securityContext,
      Ports := [],
      VolumeMounts := getStorageVolumeMounts,
      Command := ["/usr/bin/swift-account-replicator", "/etc/swift/account-server.conf", "-v"] },
    { Name := "account-auditor",
      Image := swiftstorage.Spec.ContainerImageAccount,
      ImagePullPolicy := "IfNotPresent",
      SecurityContext := securityContext,
      Ports := [],
      VolumeMounts := getStorageVolumeMounts,
      Command := ["/usr/bin/swift-account-auditor", "/etc/swift/account-server.conf", "-v"] },
    { Name := "account-reaper",
      Image := swiftstorage.Spec.ContainerImageAccount,
      ImagePullPolicy := "IfNotPresent",
      SecurityContext := securityContext,
      Ports := [],
      VolumeMounts := getStorageVolumeMounts,
      Command := ["/usr/bin/swift-account-reaper", "/etc/swift/account-server.conf", "-v"] },
    { Name := "container-server",
      Image := swiftstorage.Spec.ContainerImageContainer,
      ImagePullPolicy := "IfNotPresent",
      SecurityContext := securityContext,
      Ports := getPorts ContainerServerPort "container",
      VolumeMounts := getStorageVolumeMounts,
      Command := ["/usr/bin/swift-container-server", "/etc/swift/container-server.conf", "-v"] },
    { Name := "container-replicator",
      Image := swiftstorage.Spec.ContainerImageContainer,
      ImagePullPolicy := "IfNotPresent",
      SecurityContext := securityContext,
      Ports := [],
      VolumeMounts := getStorageVolumeMounts,
      Command := ["/usr/bin/swift-container-replicator", "/etc/swift/container-server.conf", "-v"] },
    { Name := "container-auditor",
      Image := swiftstorage.Spec.ContainerImageContainer,
      ImagePullPolicy := "IfNotPresent",
      SecurityContext := securityContext,
      Ports := [],
      VolumeMounts := getStorageVolumeMounts,
      Command := ["/usr/bin/swift-container-replicator", "/etc/swift/container-server.conf", "-v"] },
    { Name := "container-updater",
      Image := swiftstorage.Spec.ContainerImageContainer,
      ImagePullPolicy := "IfNotPresent",
      SecurityContext := securityContext,
      Ports := [],
      VolumeMounts := getStorageVolumeMounts,
      Command := ["/usr/bin/swift-container-replicator", "/etc/swift/container-server.conf", "-v"] },
    { Name := "object-server",
      Image := swiftstorage.Spec.ContainerImageObject,
      ImagePullPolicy := "IfNotPresent",
      SecurityContext := securityContext,
      Ports := getPorts ObjectServerPort "object",
      VolumeMounts := getStorageVolumeMounts,
      Command := ["/usr/bin/swift-object-server", "/etc/swift/object-server.conf", "-v"] },
    { Name := "object-replicator",
      Image := swiftstorage.Spec.ContainerImageObject,
      ImagePullPolicy := "IfNotPresent",
      SecurityContext := securityContext,
      Ports := [],
      VolumeMounts := getStorageVolumeMounts,
      Command := ["/usr/bin/swift-object-replicator", "/etc/swift/object-server.conf", "-v"] },
    { Name := "object-auditor",
      Image := swiftstorage.Spec.ContainerImageObject,
      ImagePullPolicy := "IfNotPresent",
      SecurityContext := securityContext,
      Ports := [],
      VolumeMounts := getStorageVolumeMounts,
      Command := ["/usr/bin/swift-object-replicator", "/etc/swift/object-server.conf", "-v"] },
    { Name := "object-updater",
      Image := swiftstorage.Spec.ContainerImageObject,
      ImagePullPolicy := "IfNotPresent",
      SecurityContext := securityContext,
      Ports := [],
      VolumeMounts := getStorageVolumeMounts,
      Command := ["/usr/bin/swift-object-replicator", "/etc/swift/object-server.conf", "-v"] },
    { Name := "object-expirer",
      Image := swiftstorage.Spec.ContainerImageProxy,
      ImagePullPolicy := "IfNotPresent",
      SecurityContext := securityContext,
      Ports := [],
      VolumeMounts := getStorageVolumeMounts,
      Command := ["/usr/bin/swift-object-expirer", "/etc/swift/object-expirer.conf", "-v"] },
    { Name := "rsync",
      Image := swiftstorage.Spec.ContainerImageObject,
      ImagePullPolicy := "IfNotPresent",
      SecurityContext := securityContext,
      Ports := getPorts RsyncPort "rsync",
      VolumeMounts := getStorageVolumeMounts,
      Command := ["/usr/bin/rsync", "--daemon", "--no-detach",
        "--config=/etc/swift/rsyncd.conf", "--log-file=/dev/stdout"] },
    { Name := "memcached",
      Image := swiftstorage.Spec.ContainerImageMemcached,
      ImagePullPolicy := "IfNotPresent",
      SecurityContext := securityContext,
      Ports := getPorts MemcachedPort "memcached",
      VolumeMounts := [],
      Command := ["/usr/bin/memcached", "-p", "11211", "-u", "memcached"] } ]

/-- Embeds `getStorageStatefulSet` (src lines 328-387): the full
synthesized TargetSpec as a pure function of the SwiftStorage record
and the label table. -/
def getStorageStatefulSet (swiftstorage : SwiftStorage)
    (labels : List (String × String)) : StatefulSet :=
  let trueVal := true
  let OnRootMismatch := "OnRootMismatch"
  let user := RunAsUser
  { Name := swiftstorage.Name,
    Namespace := swiftstorage.Namespace,
    Labels := labels,
    Spec :=
      { ServiceName := swiftstorage.Name,
        SelectorMatchLabels := labels,
        Replicas := swiftstorage.Spec.Replicas,
        Template :=
          { Labels := labels,
            SecurityContext :=
              { FSGroup := user,
                FSGroupChangePolicy := OnRootMismatch,
                Sysctls := [{ Name := "net.ipv4.ip_unprivileged_port_start", Value := "873" }],
                RunAsNonRoot := trueVal,
                SeccompProfileType := "RuntimeDefault" },
            Volumes := getStorageVolumes swiftstorage,
            InitContainers := getStorageInitContainers swiftstorage,
            Containers := getStorageContainers swiftstorage },
        VolumeClaimTemplates :=
          [ { Name := "srv",
              StorageClassName := swiftstorage.Spec.StorageClassName,
              AccessModes := ["ReadWriteOnce"],
              RequestsStorage := "1Gi" } ] } }

/-- Outcome classification of the State Comparator / Applier (spec
section 4.2): created, unchanged, patched, conflict-retry, or a
transport/server error carrying its message. -/
inductive ApplyOutcome where
  | Created
  | Unchanged
  | Patched
  | Retry
  | Error (e : String)
  deriving DecidableEq, Repr

/-- Modelled from the spec: the State Comparator / Applier
(`statefulset.NewStatefulSet(...).CreateOrPatch` of lib-common, outside
src/), restricted to runs with no external interference: look up the
live object by identity; if absent create it (Created); if present and
equal leave it (Unchanged); if present and divergent patch it
(Patched).  Conflicts and transport errors only arise from external
interference and are covered by `CreateOrPatchResult` below. -/
def applyStatefulSet (target : StatefulSet) (live : Option StatefulSet) :
    ApplyOutcome × Option StatefulSet :=
  match live with
  | none => (ApplyOutcome.Created, some target)
  | some obj =>
      if obj = target then (ApplyOutcome.Unchanged, some obj)
      else (ApplyOutcome.Patched, some target)

/-- The (ctrl.Result, error) pair returned by the external applier and
consumed at src lines 96-101; `Requeue := false` is the zero value of
`ctrl.Result`. -/
structure CtrlResult where
  Requeue : Bool
  deriving DecidableEq, Repr

/-- Modelled from the spec: how the external applier encodes each
outcome into the (ctrl.Result, error) pair the controller inspects —
success outcomes give the zero result and nil error, a conflict gives
a requeue-now result and nil error, and any other error is surfaced
unmodified. -/
def CreateOrPatchResult : ApplyOutcome → CtrlResult × Option String
  | ApplyOutcome.Created => ({ Requeue := false }, none)
  | ApplyOutcome.Unchanged => ({ Requeue := false }, none)
  | ApplyOutcome.Patched => ({ Requeue := false }, none)
  | ApplyOutcome.Retry => ({ Requeue := true }, none)
  | ApplyOutcome.Error e => ({ Requeue := false }, some e)

/-- Scheduling directive handed to the external loop driver. -/
inductive Directive where
  | Done
  | RequeueNow
  | RequeueError (e : String)
  deriving DecidableEq, Repr

/-- Embeds the outcome translation of `Reconcile` (src lines 96-105):
a non-nil error is returned to the scheduler (requeue with backoff), a
non-zero result is returned without error (immediate requeue), and
otherwise the pass ends successfully. -/
def reconcileDirective (r : CtrlResult × Option String) : Directive :=
  match r.2 with
  | some e => Directive.RequeueError e
  | none => if r.1.Requeue then Directive.RequeueNow else Directive.Done

/-- Result of fetching the SwiftStorage record (src lines 67-79): the
external `r.Get` either finds the record, reports it missing, or fails
with a transport error. -/
inductive FetchResult where
  | Found (inst : SwiftStorage)
  | NotFoundErr
  | OtherErr (e : String)
  deriving DecidableEq, Repr

/-- Observable result of one reconciliation pass: the scheduling
directive, the live object afterwards, and the apply outcome when an
apply was attempted (`none` records that synthesis/apply was skipped). -/
structure ReconcileResult where
  directive : Directive
  live : Option StatefulSet
  applied : Option ApplyOutcome
  deriving DecidableEq, Repr

/-- Embeds `Reconcile` (src lines 64-106) over the live-object state:
on NotFound stop with success, on any other fetch error return it,
otherwise synthesize the stateful set and apply it. -/
def Reconcile (fetch : FetchResult) (live : Option StatefulSet) : ReconcileResult :=
  match fetch with
  | FetchResult.NotFoundErr =>
      { directive := Directive.Done, live := live, applied := none }
  | FetchResult.OtherErr e =>
      { directive := Directive.RequeueError e, live := live, applied := none }
  | FetchResult.Found inst =>
      let ls := GetLabelsStorage
      let target := getStorageStatefulSet inst ls
      let res := applyStatefulSet target live
      { directive := reconcileDirective (CreateOrPatchResult res.1),
        live := res.2,
        applied := some res.1 }

/-- Iterates the reconcile loop n times for a fixed SwiftStorage record
with no intervening external mutation, tracking the live object. -/
def reconcileIter (inst : SwiftStorage) : Nat → Option StatefulSet → Option StatefulSet
  | 0, live => live
  | n + 1, live => (Reconcile (FetchResult.Found inst) (reconcileIter inst n live)).live

/-- A concrete SwiftStorage record used for witnesses and scenario A:
replicas 3, storage class "fast", ring config map "ring-1". -/
def sampleStorage : SwiftStorage :=
  { Name := "storage",
    Namespace := "ns",
    Spec :=
      { Replicas := 3,
        ContainerImageAccount := "A",
        ContainerImageContainer := "B",
        ContainerImageObject := "C",
        ContainerImageProxy := "P",
        ContainerImageMemcached := "M",
        StorageClassName := "fast",
        SwiftRingConfigMap := "ring-1" } }

/-- Helper: after one no-interference apply the live object is exactly
the target, whichever branch was taken. -/
theorem applyStatefulSet_live_eq (t : StatefulSet) (live : Option StatefulSet) :
    (applyStatefulSet t live).2 = some t := by
  cases live with
  | none => rfl
  | some obj =>
      by_cases h : obj = t
      · simp [applyStatefulSet, h]
      · simp [applyStatefulSet, h]

/-- Helper: one reconcile pass with the record present leaves the live
object equal to the synthesized target. -/
theorem reconcile_live_eq (d : SwiftStorage) (live : Option StatefulSet) :
    (Reconcile (FetchResult.Found d) live).live =
      some (getStorageStatefulSet d GetLabelsStorage) :=
  applyStatefulSet_live_eq _ _

/-- Claim C1 (counterexample): the role table has no account-domain
updater role — the account domain ships a reaper instead, so the claim
that each of the three domains has a server/replicator/auditor/updater
quadruple fails on the account domain. -/
theorem storage_role_table_no_account_updater :
    ("account-updater" ∉ (getStorageContainers sampleStorage).map Container.Name)
    ∧ "account-reaper" ∈ (getStorageContainers sampleStorage).map Container.Name := by
  decide

/-- Claim C1 (amended): for every SwiftStorage record the pod template
is the fixed ordered role table — one init role staging merged
configuration into /etc/swift using the account image, then the
long-running roles: account server/replicator/auditor/reaper on the
account image, container server/replicator/auditor/updater on the
container image, object server/replicator/auditor/updater on the
object image, the periodic expirer on the proxy image, the file-sync
daemon on the object image, and the caching daemon on the memcached
image. -/
theorem storage_role_table (d : SwiftStorage) :
    (getStorageInitContainers d).map (fun c => (c.Name, c.Image, c.Command)) =
      [("swift-init", d.Spec.ContainerImageAccount,
        ["/bin/sh", "-c",
         "cp -t /etc/swift/ /var/lib/config-data/default/* /var/lib/config-data/rings/*"])]
    ∧ (getStorageContainers d).map (fun c => (c.Name, c.Image)) =
      [("account-server", d.Spec.ContainerImageAccount),
       ("account-replicator", d.Spec.ContainerImageAccount),
       ("account-auditor", d.Spec.ContainerImageAccount),
       ("account-reaper", d.Spec.ContainerImageAccount),
       ("container-server", d.Spec.ContainerImageContainer),
       ("container-replicator", d.Spec.ContainerImageContainer),
       ("container-auditor", d.Spec.ContainerImageContainer),
       ("container-updater", d.Spec.ContainerImageContainer),
       ("object-server", d.Spec.ContainerImageObject),
       ("object-replicator", d.Spec.ContainerImageObject),
       ("object-auditor", d.Spec.ContainerImageObject),
       ("object-updater", d.Spec.ContainerImageObject),
       ("object-expirer", d.Spec.ContainerImageProxy),
       ("rsync", d.Spec.ContainerImageObject),
       ("memcached", d.Spec.ContainerImageMemcached)] :=
  ⟨rfl, rfl⟩

/-- Claim C2: synthesis is deterministic — field-wise equal SwiftStorage
records synthesize identical stateful sets; the synthesizer is a pure
function of the record and the fixed tables. -/
theorem synthesize_deterministic (d1 d2 : SwiftStorage) (h : d1 = d2) :
    getStorageStatefulSet d1 GetLabelsStorage = getStorageStatefulSet d2 GetLabelsStorage := by
  rw [h]

/-- Witness for claim C2 at the sample record. -/
theorem synthesize_deterministic_witness :
    getStorageStatefulSet sampleStorage GetLabelsStorage =
      getStorageStatefulSet sampleStorage GetLabelsStorage :=
  synthesize_deterministic sampleStorage sampleStorage rfl

/-- Claim C3: the replica count is passed through verbatim for every
record, and in scenario A (replicas 3, storage class "fast", ring map
"ring-1") the stateful set has cardinality 3, one claim template bound
to "fast", one init role, and one volume sourced from "ring-1". -/
theorem replicas_verbatim_scenarioA :
    (∀ (d : SwiftStorage) (ls : List (String × String)),
        (getStorageStatefulSet d ls).Spec.Replicas = d.Spec.Replicas)
    ∧ (getStorageStatefulSet sampleStorage GetLabelsStorage).Spec.Replicas = 3
    ∧ ((getStorageStatefulSet sampleStorage GetLabelsStorage).Spec.VolumeClaimTemplates.map
        PersistentVolumeClaim.StorageClassName) = ["fast"]
    ∧ (getStorageStatefulSet sampleStorage GetLabelsStorage).Spec.Template.InitContainers.length = 1
    ∧ ((getStorageStatefulSet sampleStorage GetLabelsStorage).Spec.Template.Volumes.filter
        (fun v => v.VolumeSource = VolumeSource.configMap "ring-1")).length = 1 := by
  refine ⟨fun d ls => rfl, rfl, rfl, rfl, ?_⟩
  decide

/-- Claim C4: for every SwiftStorage record the volume set carries
exactly one claim template (1Gi, bound to the record's storage class),
exactly one read-only mount sourced from the config map named after the
record's identity, exactly one read-only mount sourced from the
referenced ring config map, and one writable empty-dir mount at
/etc/swift, the merge target the init role copies into. -/
theorem storage_volume_contract (d : SwiftStorage) :
    ((getStorageVolumes d).filter (fun v => v.Name = "config-data")) =
      [{ Name := "config-data",
         VolumeSource := VolumeSource.configMap (d.Name ++ "-config-data") }]
    ∧ (getStorageVolumeMounts.filter (fun m => m.Name = "config-data")) =
      [{ Name := "config-data", MountPath := "/var/lib/config-data/default", ReadOnly := true }]
    ∧ ((getStorageVolumes d).filter (fun v => v.Name = "ring-data")) =
      [{ Name := "ring-data",
         VolumeSource := VolumeSource.configMap d.Spec.SwiftRingConfigMap }]
    ∧ (getStorageVolumeMounts.filter (fun m => m.Name = "ring-data")) =
      [{ Name := "ring-data", MountPath := "/var/lib/config-data/rings", ReadOnly := true }]
    ∧ ((getStorageVolumes d).filter (fun v =>
          match v.VolumeSource with
          | VolumeSource.emptyDir _ => true
          | _ => false)) =
      [{ Name := "config-data-merged", VolumeSource := VolumeSource.emptyDir "" }]
    ∧ (getStorageVolumeMounts.filter (fun m => m.Name = "config-data-merged")) =
      [{ Name := "config-data-merged", MountPath := "/etc/swift", ReadOnly := false }]
    ∧ (getStorageStatefulSet d GetLabelsStorage).Spec.VolumeClaimTemplates =
      [{ Name := "srv", StorageClassName := d.Spec.StorageClassName,
         AccessModes := ["ReadWriteOnce"], RequestsStorage := "1Gi" }]
    ∧ (getStorageInitContainers d).map Container.VolumeMounts = [getStorageVolumeMounts]
    ∧ ({ Name := "config-data-merged", MountPath := "/etc/swift", ReadOnly := false } : VolumeMount)
        ∈ getStorageVolumeMounts := by
  refine ⟨?_, by decide, ?_, by decide, ?_, by decide, rfl, rfl, by decide⟩ <;> rfl

/-- Claim C5: reconciliation is idempotent — a second application of
the same target is Unchanged, and for every pass count of at least one
the live object is exactly the synthesized target, with every later
pass reporting Unchanged and Done (no further patches). -/
theorem reconcile_idempotent (d : SwiftStorage) (live : Option StatefulSet)
    (n : Nat) (h : 1 ≤ n) :
    (applyStatefulSet (getStorageStatefulSet d GetLabelsStorage)
        (applyStatefulSet (getStorageStatefulSet d GetLabelsStorage) live).2).1 =
      ApplyOutcome.Unchanged
    ∧ reconcileIter d n live = some (getStorageStatefulSet d GetLabelsStorage)
    ∧ (Reconcile (FetchResult.Found d) (reconcileIter d n live)).applied =
        some ApplyOutcome.Unchanged
    ∧ (Reconcile (FetchResult.Found d) (reconcileIter d n live)).directive =
        Directive.Done := by
  have hsecond : ∀ l : Option StatefulSet,
      (applyStatefulSet (getStorageStatefulSet d GetLabelsStorage)
        (applyStatefulSet (getStorageStatefulSet d GetLabelsStorage) l).2).1 =
      ApplyOutcome.Unchanged := by
    intro l
    rw [applyStatefulSet_live_eq]
    simp [applyStatefulSet]
  have hiter : reconcileIter d n live = some (getStorageStatefulSet d GetLabelsStorage) := by
    cases n with
    | zero => exact absurd h (by decide)
    | succ m => exact reconcile_live_eq d (reconcileIter d m live)
  refine ⟨hsecond live, hiter, ?_, ?_⟩
  · rw [hiter]
    simp [Reconcile, applyStatefulSet]
  · rw [hiter]
    simp [Reconcile, applyStatefulSet, reconcileDirective, CreateOrPatchResult]

/-- Witness for claim C5: one pass from an empty cluster on the sample
record, then the next pass is Unchanged and Done. -/
theorem reconcile_idempotent_witness :
    (applyStatefulSet (getStorageStatefulSet sampleStorage GetLabelsStorage)
        (applyStatefulSet (getStorageStatefulSet sampleStorage GetLabelsStorage) none).2).1 =
      ApplyOutcome.Unchanged
    ∧ reconcileIter sampleStorage 1 none =
        some (getStorageStatefulSet sampleStorage GetLabelsStorage)
    ∧ (Reconcile (FetchResult.Found sampleStorage) (reconcileIter sampleStorage 1 none)).applied =
        some ApplyOutcome.Unchanged
    ∧ (Reconcile (FetchResult.Found sampleStorage) (reconcileIter sampleStorage 1 none)).directive =
        Directive.Done :=
  reconcile_idempotent sampleStorage none 1 (by decide)

/-- Claim C6: apply outcomes map directly to scheduling directives —
Created, Unchanged and Patched give Done; a conflict-rejected patch
gives RequeueNow and never RequeueError or Done; any other apply error
gives RequeueError carrying the error. -/
theorem reconcile_outcome_mapping (e : String) :
    reconcileDirective (CreateOrPatchResult ApplyOutcome.Created) = Directive.Done
    ∧ reconcileDirective (CreateOrPatchResult ApplyOutcome.Unchanged) = Directive.Done
    ∧ reconcileDirective (CreateOrPatchResult ApplyOutcome.Patched) = Directive.Done
    ∧ reconcileDirective (CreateOrPatchResult ApplyOutcome.Retry) = Directive.RequeueNow
    ∧ reconcileDirective (CreateOrPatchResult ApplyOutcome.Retry) ≠ Directive.RequeueError e
    ∧ reconcileDirective (CreateOrPatchResult ApplyOutcome.Retry) ≠ Directive.Done
    ∧ reconcileDirective (CreateOrPatchResult (ApplyOutcome.Error e)) = Directive.RequeueError e := by
  refine ⟨rfl, rfl, rfl, rfl, ?_, ?_, rfl⟩ <;>
    simp [reconcileDirective, CreateOrPatchResult]

/-- Claim C7: a NotFound fetch ends the pass with Done, no error, the
live object untouched, and no synthesis or apply attempted; any other
fetch error is returned as RequeueError with no apply attempted. -/
theorem reconcile_fetch_handling (live : Option StatefulSet) (e : String) :
    Reconcile FetchResult.NotFoundErr live =
      { directive := Directive.Done, live := live, applied := none }
    ∧ Reconcile (FetchResult.OtherErr e) live =
      { directive := Directive.RequeueError e, live := live, applied := none } :=
  ⟨rfl, rfl⟩

/-- Claim C8: the pod-level security posture is the same fixed record
for every SwiftStorage record — non-root, fixed numeric group
identity, ownership change only on root mismatch, the runtime-default
seccomp profile, and the unprivileged-port floor lowered to 873. -/
theorem pod_security_posture (d : SwiftStorage) (ls : List (String × String)) :
    (getStorageStatefulSet d ls).Spec.Template.SecurityContext =
      { FSGroup := RunAsUser,
        FSGroupChangePolicy := "OnRootMismatch",
        Sysctls := [{ Name := "net.ipv4.ip_unprivileged_port_start", Value := "873" }],
        RunAsNonRoot := true,
        SeccompProfileType := "RuntimeDefault" } :=
  rfl

/-- Claim C9: the synthesizer is total — for every SwiftStorage record
it returns a structurally complete stateful set (identity carried over,
one init role, the full fifteen-role table, all four volumes, one claim
template) without any failure path. -/
theorem synthesize_total (d : SwiftStorage) (ls : List (String × String)) :
    (getStorageStatefulSet d ls).Name = d.Name
    ∧ (getStorageStatefulSet d ls).Namespace = d.Namespace
    ∧ (getStorageStatefulSet d ls).Spec.ServiceName = d.Name
    ∧ (getStorageStatefulSet d ls).Spec.Template.InitContainers.length = 1
    ∧ (getStorageStatefulSet d ls).Spec.Template.Containers.length = 15
    ∧ (getStorageStatefulSet d ls).Spec.Template.Volumes.length = 4
    ∧ (getStorageStatefulSet d ls).Spec.VolumeClaimTemplates.length = 1 :=
  ⟨rfl, rfl, rfl, rfl, rfl, rfl, rfl⟩

/-- Claim C10: the container-auditor and container-updater roles both
launch the container-replicator binary, the object-auditor and
object-updater roles both launch the object-replicator binary, the
account-auditor role launches the account-auditor binary, and no role
invokes a container- or object-domain auditor or updater binary. -/
theorem auditor_updater_commands (d : SwiftStorage) :
    (((getStorageContainers d).filter (fun c => c.Name = "container-auditor")).map
        Container.Command) =
      [["/usr/bin/swift-container-replicator", "/etc/swift/container-server.conf", "-v"]]
    ∧ (((getStorageContainers d).filter (fun c => c.Name = "container-updater")).map
        Container.Command) =
      [["/usr/bin/swift-container-replicator", "/etc/swift/container-server.conf", "-v"]]
    ∧ (((getStorageContainers d).filter (fun c => c.Name = "object-auditor")).map
        Container.Command) =
      [["/usr/bin/swift-object-replicator", "/etc/swift/object-server.conf", "-v"]]
    ∧ (((getStorageContainers d).filter (fun c => c.Name = "object-updater")).map
        Container.Command) =
      [["/usr/bin/swift-object-replicator", "/etc/swift/object-server.conf", "-v"]]
    ∧ (((getStorageContainers d).filter (fun c => c.Name = "account-auditor")).map
        Container.Command) =
      [["/usr/bin/swift-account-auditor", "/etc/swift/account-server.conf", "-v"]]
    ∧ ∀ c ∈ getStorageContainers d,
        "/usr/bin/swift-container-auditor" ∉ c.Command
        ∧ "/usr/bin/swift-container-updater" ∉ c.Command
        ∧ "/usr/bin/swift-object-auditor" ∉ c.Command
        ∧ "/usr/bin/swift-object-updater" ∉ c.Command := by
  refine ⟨rfl, rfl, rfl, rfl, rfl, ?_⟩
  intro c hc
  fin_cases hc <;> simp

end SwiftOperator
